import Mathlib

/-!
Shallow embedding of `contrib/opencensus-ext-postgresql/opencensus/ext/postgresql/trace.py`.

The module monkey-patches the psycopg2 driver: `trace_integration` replaces
the driver module's exported `connect` symbol with the wrapping factory
`connect`, which forces the cursor factory to `TraceCursor`; the instrumented
cursor wraps each query method (`execute`, `executemany`) with
`trace_cursor_query`, which opens a span around the delegated driver call,
records attributes, and closes the span in a `finally` block.

The embedding records every interaction with the external tracer as an
explicit `TraceEvent` in an event log, and every delegated driver call in a
call log, so that span/attribute bookkeeping and pass-through behaviour are
properties of pure functions.
-/

namespace OpenCensusPG

/-- Span kinds of the external `opencensus.trace.span` module; the wrapper
only ever uses the unspecified kind. -/
inductive SpanKind where
  | unspecified
  | server
  | client
deriving DecidableEq, Repr

/-- Attribute values set on a span by this module: strings (module tag, query
text, method name) and the boolean success flag. -/
inductive AttrValue where
  | str (s : String)
  | bool (b : Bool)
deriving DecidableEq, Repr

/-- One interaction with the external tracer or with the span it returned.
The wrapper's tracing side effects are the list of these events, in order. -/
inductive TraceEvent where
  | startSpan
  | setName (n : String)
  | setSpanKind (k : SpanKind)
  | addAttribute (key : String) (v : AttrValue)
  | endSpan
deriving DecidableEq, Repr

/-- Source: `MODULE_NAME = 'postgresql'`. -/
def MODULE_NAME : String := "postgresql"

/-- Source: `QUERY_WRAP_METHODS = ['execute', 'executemany']`. -/
def QUERY_WRAP_METHODS : List String := ["execute", "executemany"]

/-- An ambient tracer handle: either the no-op tracer the execution context
returns by default, or a real tracer identified by an id.  The wrapper treats
all of them alike; only `Option TracerRef` (absence = the thread local was
explicitly set to `None`) matters to control flow. -/
inductive TracerRef where
  | noop
  | real (id : Nat)
deriving DecidableEq, Repr

/-- State of the thread-local slot of the execution context: never written,
or explicitly written with a value (which `set_opencensus_tracer` does not
protect from being `None`). -/
inductive ThreadLocal where
  | unset
  | setTo (t : Option TracerRef)
deriving DecidableEq, Repr

/-- Modelled from the spec: `opencensus.trace.execution_context`'s
`get_opencensus_tracer` is not under `src/`; per the spec ("retrieve-ambient
-tracer (returns a no-op implementation, never a missing value, except where
explicitly unset)") and the source comment ("returns a NoopTracer if no
thread local has been set" while the setter "does NOT protect against
setting None"), the lookup yields the no-op tracer when the slot was never
set, and otherwise whatever was stored, possibly `None`. -/
def get_opencensus_tracer : ThreadLocal → Option TracerRef
  | ThreadLocal.unset => some TracerRef.noop
  | ThreadLocal.setTo t => t

/-- Embedding of `trace_cursor_query(query_func)`'s inner `call`.  The bound
driver method is `query_func` (outcome `Except ε α` of calling it with the
query text and the remaining arguments), `funcName` is its `__name__`, and
`tracer` is what the ambient lookup returned at call time.  Returns the
call's outcome together with the tracing event log.  The `finally` block of
the source adds the success attribute and ends the span on both the normal
and the raising path; `raise err` re-raises the original error. -/
def trace_cursor_query {α ε Arg : Type}
    (query_func : String → Arg → Except ε α) (funcName : String)
    (tracer : Option TracerRef) (query : String) (args : Arg) :
    Except ε α × List TraceEvent :=
  match tracer with
  | none => (query_func query args, [])
  | some _ =>
    let preEvents : List TraceEvent :=
      [ TraceEvent.startSpan,
        TraceEvent.setName "database",
        TraceEvent.setSpanKind SpanKind.unspecified,
        TraceEvent.addAttribute "dependency.type" (AttrValue.str MODULE_NAME),
        TraceEvent.addAttribute (MODULE_NAME ++ ".query") (AttrValue.str query),
        TraceEvent.addAttribute (MODULE_NAME ++ ".cursor.method.name")
          (AttrValue.str funcName) ]
    match query_func query args with
    | Except.ok result =>
        (Except.ok result,
          preEvents ++
            [ TraceEvent.addAttribute (MODULE_NAME ++ ".success") (AttrValue.bool true),
              TraceEvent.endSpan ])
    | Except.error err =>
        (Except.error err,
          preEvents ++
            [ TraceEvent.addAttribute (MODULE_NAME ++ ".success") (AttrValue.bool false),
              TraceEvent.endSpan ])

/-- Direct, uninstrumented driver call, written from the spec's words for the
pass-through fast path: "call through to the original method with identical
arguments and return its result with no tracing side effects". -/
def direct_query_call {α ε Arg : Type}
    (query_func : String → Arg → Except ε α) (query : String) (args : Arg) :
    Except ε α × List TraceEvent :=
  (query_func query args, [])

/-- Number of events of the log satisfying `p`. -/
def countEvent (p : TraceEvent → Bool) (evs : List TraceEvent) : Nat :=
  (evs.filter p).length

/-- Recognises a span start. -/
def isStart : TraceEvent → Bool
  | TraceEvent.startSpan => true
  | _ => false

/-- Recognises a span end. -/
def isEnd : TraceEvent → Bool
  | TraceEvent.endSpan => true
  | _ => false

/-- Recognises a span-name assignment. -/
def isSetName : TraceEvent → Bool
  | TraceEvent.setName _ => true
  | _ => false

/-- Recognises a span-kind assignment. -/
def isSetKind : TraceEvent → Bool
  | TraceEvent.setSpanKind _ => true
  | _ => false

/-- Recognises an attribute-setting event. -/
def isAddAttribute : TraceEvent → Bool
  | TraceEvent.addAttribute _ _ => true
  | _ => false

/-- A driver cursor's query methods, as the bound methods the instrumented
cursor's constructor wraps. -/
structure DriverCursor (Arg Res Err : Type) where
  execute : String → Arg → Except Err Res
  executemany : String → Arg → Except Err Res

/-- The instrumented methods after wrapping: each takes the ambient tracer
(looked up at call time), the query text and the remaining arguments. -/
structure TraceCursorMethods (Arg Res Err : Type) where
  execute : Option TracerRef → String → Arg → Except Err Res × List TraceEvent
  executemany : Option TracerRef → String → Arg → Except Err Res × List TraceEvent

/-- Embedding of `TraceCursor.__init__`: for each name in
`QUERY_WRAP_METHODS`, rebind the method to `trace_cursor_query` applied to
the original bound method. -/
def TraceCursor_init {Arg Res Err : Type} (c : DriverCursor Arg Res Err) :
    TraceCursorMethods Arg Res Err :=
  { execute := trace_cursor_query c.execute "execute"
  , executemany := trace_cursor_query c.executemany "executemany" }

/-- A cursor factory a caller may pass through connect's keyword arguments. -/
inductive CursorFactory where
  | TraceCursorF
  | driverDefault
  | other (id : Nat)
deriving DecidableEq, Repr

/-- The keyword arguments of a connect call: the `cursor_factory` entry that
the wrapper forces, and the rest of the keyword arguments, opaque. -/
structure ConnectKwargs (Other : Type) where
  cursor_factory : Option CursorFactory
  other : Other
deriving DecidableEq, Repr

/-- Outcome of the wrapping factory: the value returned (or error raised),
the delegated driver calls it made, and its tracer interactions. -/
structure ConnectOutcome (Args Other Conn Err : Type) where
  result : Except Err Conn
  driverCalls : List (Args × ConnectKwargs Other)
  traceEvents : List TraceEvent

/-- Embedding of the module's `connect(*args, **kwargs)`: set
`kwargs['cursor_factory'] = TraceCursor`, call the import-time binding
`pg_connect` with the same positional arguments and the updated keyword
arguments, and return whatever it returns.  `pg_connect` is a parameter
standing for the driver function captured by
`from psycopg2 import connect as pg_connect` at module import time. -/
def connect {Args Other Conn Err : Type}
    (pg_connect : Args → ConnectKwargs Other → Except Err Conn)
    (args : Args) (kwargs : ConnectKwargs Other) :
    ConnectOutcome Args Other Conn Err :=
  let kwargs' := { kwargs with cursor_factory := some CursorFactory.TraceCursorF }
  { result := pg_connect args kwargs'
  , driverCalls := [(args, kwargs')]
  , traceEvents := [] }

/-- A live connection as the spec describes it: the driver keeps the cursor
factory it was asked for and the connection parameters, otherwise unchanged. -/
structure PGConnection (Args Other : Type) where
  cursor_factory : CursorFactory
  args : Args
  other : Other
deriving DecidableEq, Repr

/-- Modelled from the spec: psycopg2's own `connect` is not under `src/`.
Per the spec ("ability to pass a custom cursor type via a factory parameter
accepted by the driver"; "returns whatever the underlying driver returns (a
live connection)"), the driver either fails for the given parameters or
returns a connection honouring the requested `cursor_factory` (its own
default when none was passed) and carrying the parameters unchanged. -/
def psycopg2_connect_model {Args Other Err : Type} (outcome : Args → Option Err)
    (args : Args) (kwargs : ConnectKwargs Other) :
    Except Err (PGConnection Args Other) :=
  match outcome args with
  | some e => Except.error e
  | none =>
      Except.ok
        { cursor_factory := kwargs.cursor_factory.getD CursorFactory.driverDefault
        , args := args
        , other := kwargs.other }

/-- A function object a module-level `connect` symbol can refer to: the
driver's native connect (defined in the psycopg2 module) or this module's
wrapping factory (defined in the trace module).  Both have `__name__`
equal to `"connect"`. -/
inductive FuncRef where
  | pgOriginal
  | wrapper
deriving DecidableEq, Repr

/-- The modules `inspect.getmodule` can return for those functions. -/
inductive ModuleId where
  | psycopg2
  | traceModule
deriving DecidableEq, Repr

/-- Modelled from the spec: `inspect.getmodule` is library code; it returns
the module in which the function was defined. -/
def getmodule : FuncRef → ModuleId
  | FuncRef.pgOriginal => ModuleId.psycopg2
  | FuncRef.wrapper => ModuleId.traceModule

/-- The process-wide state `trace_integration` mutates: what the name
`connect` refers to in the psycopg2 module and in the trace module. -/
structure ModuleState where
  psycopg2_connect : FuncRef
  trace_connect : FuncRef
deriving DecidableEq, Repr

/-- State at module import time: psycopg2 still exports its native connect,
and the trace module's `connect` is its own wrapping factory. -/
def importState : ModuleState :=
  { psycopg2_connect := FuncRef.pgOriginal, trace_connect := FuncRef.wrapper }

/-- Embedding of `trace_integration(tracer=None)`: read
`conn_func = getattr(psycopg2, 'connect')`, find its defining module with
`inspect.getmodule`, and set that module's attribute named
`conn_func.__name__` (always `"connect"`) to the wrapping factory.  The
`tracer` argument is accepted and never used. -/
def trace_integration (tracer : Option TracerRef) (s : ModuleState) : ModuleState :=
  let conn_func := s.psycopg2_connect
  match getmodule conn_func with
  | ModuleId.psycopg2 => { s with psycopg2_connect := FuncRef.wrapper }
  | ModuleId.traceModule => { s with trace_connect := FuncRef.wrapper }

/-- The module state after `n` consecutive calls of `trace_integration`
starting from the import-time state. -/
def installedTimes (tracer : Option TracerRef) : Nat → ModuleState
  | 0 => importState
  | n + 1 => trace_integration tracer (installedTimes tracer n)

/-- Claim C1: a successful query call through an instrumented cursor method
(`execute` or `executemany`) with an ambient tracer bound starts exactly one
span and ends exactly one span, carries the dependency-type tag, the literal
query text, the invoked method's name, and success = true as attributes, and
returns the delegated method's result unchanged. -/
theorem c1_successful_query_traced {α ε Arg : Type}
    (query_func : String → Arg → Except ε α) (funcName : String)
    (t : TracerRef) (query : String) (args : Arg) (r : α)
    (hname : funcName ∈ QUERY_WRAP_METHODS)
    (hok : query_func query args = Except.ok r) :
    (trace_cursor_query query_func funcName (some t) query args).1 = Except.ok r ∧
    countEvent isStart (trace_cursor_query query_func funcName (some t) query args).2 = 1 ∧
    countEvent isEnd (trace_cursor_query query_func funcName (some t) query args).2 = 1 ∧
    TraceEvent.addAttribute "dependency.type" (AttrValue.str MODULE_NAME)
      ∈ (trace_cursor_query query_func funcName (some t) query args).2 ∧
    TraceEvent.addAttribute (MODULE_NAME ++ ".query") (AttrValue.str query)
      ∈ (trace_cursor_query query_func funcName (some t) query args).2 ∧
    TraceEvent.addAttribute (MODULE_NAME ++ ".cursor.method.name") (AttrValue.str funcName)
      ∈ (trace_cursor_query query_func funcName (some t) query args).2 ∧
    TraceEvent.addAttribute (MODULE_NAME ++ ".success") (AttrValue.bool true)
      ∈ (trace_cursor_query query_func funcName (some t) query args).2 := by
  simp [trace_cursor_query, hok, countEvent, isStart, isEnd, List.filter]

/-- Witness for C1: the concrete call `execute "SELECT 1"` succeeding with
value 42 under the no-op tracer. -/
theorem c1_successful_query_traced_witness :
    (trace_cursor_query (fun (_ : String) (_ : Unit) => (Except.ok 42 : Except Unit Nat))
        "execute" (some TracerRef.noop) "SELECT 1" ()).1 = Except.ok 42 ∧
    countEvent isStart (trace_cursor_query
        (fun (_ : String) (_ : Unit) => (Except.ok 42 : Except Unit Nat))
        "execute" (some TracerRef.noop) "SELECT 1" ()).2 = 1 ∧
    countEvent isEnd (trace_cursor_query
        (fun (_ : String) (_ : Unit) => (Except.ok 42 : Except Unit Nat))
        "execute" (some TracerRef.noop) "SELECT 1" ()).2 = 1 ∧
    TraceEvent.addAttribute "dependency.type" (AttrValue.str MODULE_NAME)
      ∈ (trace_cursor_query (fun (_ : String) (_ : Unit) => (Except.ok 42 : Except Unit Nat))
          "execute" (some TracerRef.noop) "SELECT 1" ()).2 ∧
    TraceEvent.addAttribute (MODULE_NAME ++ ".query") (AttrValue.str "SELECT 1")
      ∈ (trace_cursor_query (fun (_ : String) (_ : Unit) => (Except.ok 42 : Except Unit Nat))
          "execute" (some TracerRef.noop) "SELECT 1" ()).2 ∧
    TraceEvent.addAttribute (MODULE_NAME ++ ".cursor.method.name") (AttrValue.str "execute")
      ∈ (trace_cursor_query (fun (_ : String) (_ : Unit) => (Except.ok 42 : Except Unit Nat))
          "execute" (some TracerRef.noop) "SELECT 1" ()).2 ∧
    TraceEvent.addAttribute (MODULE_NAME ++ ".success") (AttrValue.bool true)
      ∈ (trace_cursor_query (fun (_ : String) (_ : Unit) => (Except.ok 42 : Except Unit Nat))
          "execute" (some TracerRef.noop) "SELECT 1" ()).2 :=
  c1_successful_query_traced _ "execute" TracerRef.noop "SELECT 1" () 42
    (by decide) rfl

/-- Claim C2: a failing query call with an ambient tracer bound starts and
ends exactly one span, records success = false, and propagates the original
error unchanged. -/
theorem c2_failing_query_traced {α ε Arg : Type}
    (query_func : String → Arg → Except ε α) (funcName : String)
    (t : TracerRef) (query : String) (args : Arg) (e : ε)
    (herr : query_func query args = Except.error e) :
    (trace_cursor_query query_func funcName (some t) query args).1 = Except.error e ∧
    countEvent isStart (trace_cursor_query query_func funcName (some t) query args).2 = 1 ∧
    countEvent isEnd (trace_cursor_query query_func funcName (some t) query args).2 = 1 ∧
    TraceEvent.addAttribute (MODULE_NAME ++ ".success") (AttrValue.bool false)
      ∈ (trace_cursor_query query_func funcName (some t) query args).2 := by
  simp [trace_cursor_query, herr, countEvent, isStart, isEnd, List.filter]

/-- Witness for C2: a concrete `executemany` call whose delegated driver
method raises error 7 under the no-op tracer. -/
theorem c2_failing_query_traced_witness :
    (trace_cursor_query (fun (_ : String) (_ : Unit) => (Except.error 7 : Except Nat Nat))
        "executemany" (some TracerRef.noop) "INSERT" ()).1 = Except.error 7 ∧
    countEvent isStart (trace_cursor_query
        (fun (_ : String) (_ : Unit) => (Except.error 7 : Except Nat Nat))
        "executemany" (some TracerRef.noop) "INSERT" ()).2 = 1 ∧
    countEvent isEnd (trace_cursor_query
        (fun (_ : String) (_ : Unit) => (Except.error 7 : Except Nat Nat))
        "executemany" (some TracerRef.noop) "INSERT" ()).2 = 1 ∧
    TraceEvent.addAttribute (MODULE_NAME ++ ".success") (AttrValue.bool false)
      ∈ (trace_cursor_query (fun (_ : String) (_ : Unit) => (Except.error 7 : Except Nat Nat))
          "executemany" (some TracerRef.noop) "INSERT" ()).2 :=
  c2_failing_query_traced _ "executemany" TracerRef.noop "INSERT" () 7 rfl

/-- Claim C3: with no ambient tracer bound the wrapper is extensionally the
direct driver call — same result (value or error) and no tracing events. -/
theorem c3_no_tracer_passthrough {α ε Arg : Type}
    (query_func : String → Arg → Except ε α) (funcName : String)
    (query : String) (args : Arg) :
    trace_cursor_query query_func funcName none query args
      = direct_query_call query_func query args := rfl

/-- Claim C4: span starts and ends balance on every path; at most one span
is ended per call; and whenever a tracer is bound (so a span is started),
the call ends exactly one span and the very last tracer interaction is the
span end, reflecting the guaranteed-execution `finally` block. -/
theorem c4_span_always_ended {α ε Arg : Type}
    (query_func : String → Arg → Except ε α) (funcName : String)
    (query : String) (args : Arg) :
    (∀ tracer : Option TracerRef,
      countEvent isStart (trace_cursor_query query_func funcName tracer query args).2
        = countEvent isEnd (trace_cursor_query query_func funcName tracer query args).2 ∧
      countEvent isEnd (trace_cursor_query query_func funcName tracer query args).2 ≤ 1) ∧
    (∀ t : TracerRef,
      countEvent isStart (trace_cursor_query query_func funcName (some t) query args).2 = 1 ∧
      countEvent isEnd (trace_cursor_query query_func funcName (some t) query args).2 = 1 ∧
      ∃ pre, (trace_cursor_query query_func funcName (some t) query args).2
        = pre ++ [TraceEvent.endSpan]) := by
  constructor
  · intro tracer
    cases tracer with
    | none => simp [trace_cursor_query, countEvent]
    | some t =>
      cases h : query_func query args <;>
        simp [trace_cursor_query, h, countEvent, isStart, isEnd, List.filter]
  · intro t
    cases h : query_func query args with
    | ok r =>
        simp only [trace_cursor_query, h]
        exact ⟨by simp [countEvent, isStart, List.filter],
               by simp [countEvent, isEnd, List.filter],
               [TraceEvent.startSpan, TraceEvent.setName "database",
                TraceEvent.setSpanKind SpanKind.unspecified,
                TraceEvent.addAttribute "dependency.type" (AttrValue.str MODULE_NAME),
                TraceEvent.addAttribute (MODULE_NAME ++ ".query") (AttrValue.str query),
                TraceEvent.addAttribute (MODULE_NAME ++ ".cursor.method.name")
                  (AttrValue.str funcName),
                TraceEvent.addAttribute (MODULE_NAME ++ ".success") (AttrValue.bool true)],
               rfl⟩
    | error e =>
        simp only [trace_cursor_query, h]
        exact ⟨by simp [countEvent, isStart, List.filter],
               by simp [countEvent, isEnd, List.filter],
               [TraceEvent.startSpan, TraceEvent.setName "database",
                TraceEvent.setSpanKind SpanKind.unspecified,
                TraceEvent.addAttribute "dependency.type" (AttrValue.str MODULE_NAME),
                TraceEvent.addAttribute (MODULE_NAME ++ ".query") (AttrValue.str query),
                TraceEvent.addAttribute (MODULE_NAME ++ ".cursor.method.name")
                  (AttrValue.str funcName),
                TraceEvent.addAttribute (MODULE_NAME ++ ".success") (AttrValue.bool false)],
               rfl⟩

/-- Claim C5: the patched factory forwards the same positional arguments and
the keyword arguments with `cursor_factory` forced to the instrumented
cursor type, returns the driver's result unchanged, and against the
spec-modelled driver the resulting connection's cursor factory is the
instrumented type with all other parameters unchanged — even when the
caller supplied their own `cursor_factory`. -/
theorem c5_connect_forces_trace_cursor {Args Other Conn Err : Type}
    (pg_connect : Args → ConnectKwargs Other → Except Err Conn)
    (outcome : Args → Option Err) (args : Args) (kwargs : ConnectKwargs Other)
    (hok : outcome args = none) :
    (connect pg_connect args kwargs).driverCalls
      = [(args, { kwargs with cursor_factory := some CursorFactory.TraceCursorF })] ∧
    (connect pg_connect args kwargs).result
      = pg_connect args { kwargs with cursor_factory := some CursorFactory.TraceCursorF } ∧
    (connect (psycopg2_connect_model outcome) args kwargs).result
      = Except.ok { cursor_factory := CursorFactory.TraceCursorF
                  , args := args
                  , other := kwargs.other } := by
  refine ⟨rfl, rfl, ?_⟩
  simp [connect, psycopg2_connect_model, hok]

/-- Witness for C5: a concrete connect call whose caller supplied a
different cursor factory of their own. -/
theorem c5_connect_forces_trace_cursor_witness :
    (connect (psycopg2_connect_model (fun (_ : Nat) => (none : Option Unit))) 3
        { cursor_factory := some (CursorFactory.other 9), other := 5 }).driverCalls
      = [(3, { cursor_factory := some CursorFactory.TraceCursorF, other := 5 })] ∧
    (connect (psycopg2_connect_model (fun (_ : Nat) => (none : Option Unit))) 3
        { cursor_factory := some (CursorFactory.other 9), other := 5 }).result
      = psycopg2_connect_model (fun (_ : Nat) => (none : Option Unit)) 3
          { cursor_factory := some CursorFactory.TraceCursorF, other := 5 } ∧
    (connect (psycopg2_connect_model (fun (_ : Nat) => (none : Option Unit))) 3
        { cursor_factory := some (CursorFactory.other 9), other := 5 }).result
      = Except.ok { cursor_factory := CursorFactory.TraceCursorF, args := 3, other := 5 } :=
  c5_connect_forces_trace_cursor
    (psycopg2_connect_model (fun (_ : Nat) => (none : Option Unit)))
    (fun (_ : Nat) => (none : Option Unit)) 3
    { cursor_factory := some (CursorFactory.other 9), other := 5 } rfl

/-- Claim C6: when the underlying driver connect raises, the patched
factory propagates the same error unmodified, creates no span and adds no
attribute. -/
theorem c6_connect_error_propagates {Args Other Conn Err : Type}
    (pg_connect : Args → ConnectKwargs Other → Except Err Conn)
    (args : Args) (kwargs : ConnectKwargs Other) (e : Err)
    (herr : pg_connect args
        { kwargs with cursor_factory := some CursorFactory.TraceCursorF }
      = Except.error e) :
    (connect pg_connect args kwargs).result = Except.error e ∧
    (connect pg_connect args kwargs).traceEvents = [] := by
  exact ⟨herr, rfl⟩

/-- Witness for C6: a concrete driver connect that fails with error 11. -/
theorem c6_connect_error_propagates_witness :
    (connect (fun (_ : Nat) (_ : ConnectKwargs Nat) => (Except.error 11 : Except Nat Nat))
        0 { cursor_factory := none, other := 2 }).result = Except.error 11 ∧
    (connect (fun (_ : Nat) (_ : ConnectKwargs Nat) => (Except.error 11 : Except Nat Nat))
        0 { cursor_factory := none, other := 2 }).traceEvents = [] :=
  c6_connect_error_propagates _ 0 { cursor_factory := none, other := 2 } 11 rfl

/-- Claim C7: one call of `trace_integration`, with or without the optional
tracer argument, replaces the psycopg2 module's exported `connect` symbol
with the wrapping factory, and the tracer argument never influences the
result. -/
theorem c7_trace_integration_installs (tracer : Option TracerRef) :
    (trace_integration tracer importState).psycopg2_connect = FuncRef.wrapper ∧
    trace_integration tracer importState
      = { psycopg2_connect := FuncRef.wrapper, trace_connect := FuncRef.wrapper } ∧
    (∀ (t₁ t₂ : Option TracerRef) (s : ModuleState),
      trace_integration t₁ s = trace_integration t₂ s) :=
  ⟨rfl, rfl, fun _ _ _ => rfl⟩

/-- Claim C8: the pass-through fast path is taken exactly when the ambient
lookup returns `None`, which happens only when the thread-local slot was
explicitly set to `None`; the default no-op tracer (and any other tracer)
still takes the full tracing path: one span started, one ended, all four
attributes set. -/
theorem c8_passthrough_iff_none {α ε Arg : Type}
    (query_func : String → Arg → Except ε α) (funcName : String)
    (query : String) (args : Arg) :
    (∀ tl : ThreadLocal,
      get_opencensus_tracer tl = none ↔ tl = ThreadLocal.setTo none) ∧
    trace_cursor_query query_func funcName none query args
      = (query_func query args, []) ∧
    (∀ t : TracerRef,
      countEvent isStart (trace_cursor_query query_func funcName (some t) query args).2 = 1 ∧
      countEvent isEnd (trace_cursor_query query_func funcName (some t) query args).2 = 1 ∧
      countEvent isAddAttribute
        (trace_cursor_query query_func funcName (some t) query args).2 = 4) := by
  refine ⟨?_, rfl, ?_⟩
  · intro tl
    cases tl with
    | unset => simp [get_opencensus_tracer]
    | setTo t => cases t <;> simp [get_opencensus_tracer]
  · intro t
    cases h : query_func query args <;>
      simp [trace_cursor_query, h, countEvent, isStart, isEnd, isAddAttribute, List.filter]

/-- Claim C9: every traced call names its span "database" and gives it the
unspecified span kind — these are the only name/kind assignments — whatever
the query text and the invoked method. -/
theorem c9_span_name_and_kind_fixed {α ε Arg : Type}
    (query_func : String → Arg → Except ε α) (funcName : String)
    (t : TracerRef) (query : String) (args : Arg) :
    (trace_cursor_query query_func funcName (some t) query args).2.filter isSetName
      = [TraceEvent.setName "database"] ∧
    (trace_cursor_query query_func funcName (some t) query args).2.filter isSetKind
      = [TraceEvent.setSpanKind SpanKind.unspecified] := by
  cases h : query_func query args <;>
    simp [trace_cursor_query, h, isSetName, isSetKind, List.filter]

/-- After at least one installation the module state is the fixed point with
both symbols bound to the wrapping factory. -/
theorem installedTimes_succ (tracer : Option TracerRef) :
    ∀ m : Nat, installedTimes tracer (m + 1)
      = { psycopg2_connect := FuncRef.wrapper, trace_connect := FuncRef.wrapper }
  | 0 => rfl
  | m + 1 => by
      show trace_integration tracer (installedTimes tracer (m + 1)) = _
      rw [installedTimes_succ tracer m]
      rfl

/-- Claim C10: installing more than once never stacks wrappers — the module
state after `n ≥ 1` installations equals the state after one — and the
patched factory delegates exactly once per call to the import-time
`pg_connect` binding. -/
theorem c10_reinstall_never_stacks {Args Other Conn Err : Type}
    (pg_connect : Args → ConnectKwargs Other → Except Err Conn)
    (args : Args) (kwargs : ConnectKwargs Other)
    (tracer : Option TracerRef) (n : Nat) (hn : 1 ≤ n) :
    installedTimes tracer n = installedTimes tracer 1 ∧
    (installedTimes tracer n).psycopg2_connect = FuncRef.wrapper ∧
    (connect pg_connect args kwargs).driverCalls.length = 1 := by
  obtain ⟨m, rfl⟩ : ∃ m, n = m + 1 := ⟨n - 1, (Nat.succ_pred_eq_of_pos hn).symm⟩
  rw [installedTimes_succ tracer m]
  exact ⟨(installedTimes_succ tracer 0).symm, rfl, rfl⟩

/-- Witness for C10: three installations leave the same state as one, with a
concrete driver connect. -/
theorem c10_reinstall_never_stacks_witness :
    installedTimes none 3 = installedTimes none 1 ∧
    (installedTimes none 3).psycopg2_connect = FuncRef.wrapper ∧
    (connect (fun (_ : Nat) (_ : ConnectKwargs Nat) => (Except.ok 0 : Except Unit Nat))
        1 { cursor_factory := none, other := 0 }).driverCalls.length = 1 :=
  c10_reinstall_never_stacks _ 1 { cursor_factory := none, other := 0 } none 3
    (by decide)

end OpenCensusPG
